import Mathlib

/-!
Shallow embedding of the SpathaX-agent endpoint-monitoring core
(filesystem / registry change-detection engines) and proofs about it.

Conventions used throughout:
* Rust String is Lean String; str::is_empty is the test s = "".
* chrono DateTime is modelled abstractly as Nat (the proofs never
  inspect time values, only propagate them).
* Uuid::new_v4() and Utc::now() are effectful generators; functions that
  call them take the generated value (or an entropy stream) as an extra
  parameter, which is the standard shallow embedding of a value produced
  by the environment.
* Result becomes Except String, Option becomes Option; .ok() becomes
  Except.toOption.
* The fluent builder setters of the source each set one field of the
  builder struct to Some value; builder values are therefore written as
  record literals over all-Option fields that default to none.
-/

namespace SpathaX

/-- Severity levels, from src/shared/traits.rs. -/
inductive Severity where
  | Low
  | Medium
  | High
  | Critical
deriving DecidableEq, Repr

/-- Abstract timestamps standing for chrono DateTime values. -/
abbrev Timestamp := Nat

/-- Test whether a character list starts with a pattern. -/
def charsStartWith : List Char → List Char → Bool
  | _, [] => true
  | [], _ :: _ => false
  | c :: cs, p :: ps => c == p && charsStartWith cs ps

/-- Test whether a pattern occurs anywhere in a character list. -/
def charsContain : List Char → List Char → Bool
  | [], pat => pat.isEmpty
  | c :: rest, pat => charsStartWith (c :: rest) pat || charsContain rest pat

/-- Substring containment, the model of Rust str::contains on a string
pattern: true iff the pattern occurs somewhere in s (the empty pattern
always matches, as in Rust). -/
def substrContains (s pat : String) : Bool :=
  charsContain s.data pat.data

/-- Character-wise lowercasing, the model of Rust str::to_lowercase
(the two agree on the ASCII data the classifier handles). -/
def strToLower (s : String) : String :=
  String.mk (s.data.map Char.toLower)

/-! ## Filesystem event model (src/features/filesystem/models.rs) -/

/-- Tail of every terminal build: run the invariant check of the
assembled record and return the record itself on success, the
validation error otherwise (the Rust event.validate()? followed by
Ok(event)). -/
def validateThen {α : Type} (validate : α → Except String Unit) (a : α) :
    Except String α :=
  match validate a with
  | .error msg => .error msg
  | .ok _ => .ok a

/-- File event kinds, from FileEventType in filesystem/models.rs. -/
inductive FileEventType where
  | Created
  | Modified
  | Deleted
  | Renamed
  | AttributesModified
  | Accessed
deriving DecidableEq, Repr

/-- File change event, from FileEvent in filesystem/models.rs.
Sizes (u64) and pids (u32) are modelled as Nat; the code only ever
compares a size with zero. -/
structure FileEvent where
  id : String
  timestamp : Timestamp
  source : String
  category : String
  event_type : FileEventType
  path : String
  new_path : Option String
  file_type : String
  file_size : Option Nat
  permissions : Option String
  hash : Option String
  process_id : Option Nat
  process_name : Option String
deriving DecidableEq, Repr

/-- Severity derivation for file events: the match in
impl Event for FileEvent, filesystem/models.rs lines 52-58. -/
def FileEvent.severity (e : FileEvent) : Severity :=
  match e.event_type with
  | .Created | .Deleted => .High
  | .Modified | .Renamed => .Medium
  | .AttributesModified | .Accessed => .Low

/-- Invariant check for file events: impl Validatable for FileEvent,
filesystem/models.rs lines 71-95, with the checks in source order. The
if-let on a present-and-empty new path is the test new_path = some
empty, and likewise for a present zero size. -/
def FileEvent.validate (e : FileEvent) : Except String Unit :=
  if e.path = "" then .error "File path cannot be empty"
  else if e.new_path = some "" then
    .error "New file path cannot be empty when provided"
  else if e.file_type = "" then .error "File type cannot be empty"
  else if e.file_size = some 0 then
    .error "File size cannot be zero when provided"
  else .ok ()

/-- Builder for file events, from FileEventBuilder in
filesystem/models.rs; every field starts absent (Default). -/
structure FileEventBuilder where
  id : Option String := none
  timestamp : Option Timestamp := none
  source : Option String := none
  category : Option String := none
  event_type : Option FileEventType := none
  path : Option String := none
  new_path : Option String := none
  file_type : Option String := none
  file_size : Option Nat := none
  permissions : Option String := none
  hash : Option String := none
  process_id : Option Nat := none
  process_name : Option String := none
deriving Repr

/-- Terminal build of the file event builder, filesystem/models.rs lines
184-203. Every required field is unwrapped with ok_or in struct-literal
order (id first), so the error names the first missing field; then the
event is validated and returned. Note that this builder generates
nothing: id and timestamp are both required. -/
def FileEventBuilder.build (b : FileEventBuilder) : Except String FileEvent :=
  match b.id, b.timestamp, b.source, b.category, b.event_type, b.path, b.file_type with
  | some id, some ts, some src, some cat, some et, some p, some ft =>
    validateThen FileEvent.validate
      { id := id, timestamp := ts, source := src, category := cat,
        event_type := et, path := p, new_path := b.new_path,
        file_type := ft, file_size := b.file_size,
        permissions := b.permissions, hash := b.hash,
        process_id := b.process_id, process_name := b.process_name }
  | none, _, _, _, _, _, _ => .error "id is required"
  | some _, none, _, _, _, _, _ => .error "timestamp is required"
  | some _, some _, none, _, _, _, _ => .error "source is required"
  | some _, some _, some _, none, _, _, _ => .error "category is required"
  | some _, some _, some _, some _, none, _, _ => .error "event_type is required"
  | some _, some _, some _, some _, some _, none, _ => .error "path is required"
  | some _, some _, some _, some _, some _, some _, none => .error "file_type is required"

/-! ## Registry event model (src/features/registry/models.rs) -/

/-- Registry event kinds, from RegistryEventType in registry/models.rs. -/
inductive RegistryEventType where
  | Created
  | Modified
  | Deleted
deriving DecidableEq, Repr

/-- Rendering of a registry event kind by the Debug formatter, used by
the classifier for the operation field. -/
def RegistryEventType.debugFmt : RegistryEventType → String
  | .Created => "Created"
  | .Modified => "Modified"
  | .Deleted => "Deleted"

/-- Registry change event, from RegistryEvent in registry/models.rs. -/
structure RegistryEvent where
  id : String
  timestamp : Timestamp
  source : String
  category : String
  event_type : RegistryEventType
  key_path : String
  value_name : Option String
  old_data : Option String
  new_data : Option String
  process_name : Option String
  process_id : Option Nat
deriving DecidableEq, Repr

/-- Severity derivation for registry events: the match in
impl Event for RegistryEvent, registry/models.rs lines 45-50. -/
def RegistryEvent.severity (e : RegistryEvent) : Severity :=
  match e.event_type with
  | .Created | .Deleted => .High
  | .Modified => .Medium

/-- Invariant check for registry events: impl Validatable for
RegistryEvent, registry/models.rs lines 63-70; only the key path is
checked. -/
def RegistryEvent.validate (e : RegistryEvent) : Except String Unit :=
  if e.key_path = "" then .error "Registry key path cannot be empty"
  else .ok ()

/-- Builder for registry events, from RegistryEventBuilder in
registry/models.rs; every field starts absent (Default). -/
structure RegistryEventBuilder where
  id : Option String := none
  timestamp : Option Timestamp := none
  source : Option String := none
  category : Option String := none
  event_type : Option RegistryEventType := none
  key_path : Option String := none
  value_name : Option String := none
  old_data : Option String := none
  new_data : Option String := none
  process_name : Option String := none
  process_id : Option Nat := none
deriving Repr

/-- Terminal build of the registry event builder, registry/models.rs
lines 266-283. The id field alone is generated when absent
(unwrap_or_else with a fresh uuid, modelled by the genId parameter);
timestamp, source, category, event_type and key_path are unwrapped with
ok_or in struct-literal order, so the error names the first missing one;
then the event is validated and returned. -/
def RegistryEventBuilder.build (b : RegistryEventBuilder) (genId : String) :
    Except String RegistryEvent :=
  match b.timestamp, b.source, b.category, b.event_type, b.key_path with
  | some ts, some src, some cat, some et, some kp =>
    validateThen RegistryEvent.validate
      { id := b.id.getD genId, timestamp := ts, source := src,
        category := cat, event_type := et, key_path := kp,
        value_name := b.value_name, old_data := b.old_data,
        new_data := b.new_data, process_name := b.process_name,
        process_id := b.process_id }
  | none, _, _, _, _ => .error "timestamp is required"
  | some _, none, _, _, _ => .error "source is required"
  | some _, some _, none, _, _ => .error "category is required"
  | some _, some _, some _, none, _ => .error "event_type is required"
  | some _, some _, some _, some _, none => .error "key_path is required"

/-- Suspicious registry operation record, from
SuspiciousRegistryOperation in registry/models.rs. -/
structure SuspiciousRegistryOperation where
  id : String
  timestamp : Timestamp
  source : String
  category : String
  operation : String
  key_path : String
  value_name : Option String
  data : Option String
  process_name : Option String
  process_id : Option Nat
  severity_level : Severity
  reason : String
deriving DecidableEq, Repr

/-- Invariant check for suspicious operations: impl Validatable for
SuspiciousRegistryOperation, registry/models.rs lines 176-188. -/
def SuspiciousRegistryOperation.validate (o : SuspiciousRegistryOperation) :
    Except String Unit :=
  if o.operation = "" then .error "Operation cannot be empty"
  else if o.key_path = "" then .error "Registry key path cannot be empty"
  else if o.reason = "" then .error "Reason cannot be empty"
  else .ok ()

/-- Builder for suspicious operations, from
SuspiciousRegistryOperationBuilder in registry/models.rs. -/
structure SuspiciousRegistryOperationBuilder where
  id : Option String := none
  timestamp : Option Timestamp := none
  source : Option String := none
  category : Option String := none
  operation : Option String := none
  key_path : Option String := none
  value_name : Option String := none
  data : Option String := none
  process_name : Option String := none
  process_id : Option Nat := none
  severity_level : Option Severity := none
  reason : Option String := none
deriving Repr

/-- Terminal build of the suspicious-operation builder,
registry/models.rs lines 367-385: id is generated when absent; the
other required fields are unwrapped in struct-literal order; then the
record is validated. -/
def SuspiciousRegistryOperationBuilder.build
    (b : SuspiciousRegistryOperationBuilder) (genId : String) :
    Except String SuspiciousRegistryOperation :=
  match b.timestamp, b.source, b.category, b.operation, b.key_path,
      b.severity_level, b.reason with
  | some ts, some src, some cat, some op, some kp, some sev, some rsn =>
    validateThen SuspiciousRegistryOperation.validate
      { id := b.id.getD genId, timestamp := ts, source := src,
        category := cat, operation := op, key_path := kp,
        value_name := b.value_name, data := b.data,
        process_name := b.process_name, process_id := b.process_id,
        severity_level := sev, reason := rsn }
  | none, _, _, _, _, _, _ => .error "timestamp is required"
  | some _, none, _, _, _, _, _ => .error "source is required"
  | some _, some _, none, _, _, _, _ => .error "category is required"
  | some _, some _, some _, none, _, _, _ => .error "operation is required"
  | some _, some _, some _, some _, none, _, _ => .error "key_path is required"
  | some _, some _, some _, some _, some _, none, _ => .error "severity_level is required"
  | some _, some _, some _, some _, some _, some _, none => .error "reason is required"

/-! ## Registry collector (src/features/registry/collector.rs) -/

/-- Registry settings block of the monitor config,
registry/collector.rs lines 43-47. -/
structure RegistrySettings where
  check_interval_ms : Nat
  max_events_per_collection : Nat
deriving Repr

/-- Registry section of the monitor config, registry/collector.rs lines
36-41. The autorun_paths list doubles as the sensitive-path list of the
classifier (its second check iterates over it). -/
structure RegistryConfig where
  autorun_paths : List String
  suspicious_patterns : List String
  settings : RegistrySettings
deriving Repr

namespace RegistryCollector

/-- Fixed autorun locations, registry/collector.rs lines 60-70, as
(subkey, hive) pairs exactly as in the source table. -/
def AUTORUN_LOCATIONS : List (String × String) :=
  [("SOFTWARE\\Microsoft\\Windows\\CurrentVersion\\Run", "HKEY_LOCAL_MACHINE"),
   ("SOFTWARE\\Microsoft\\Windows\\CurrentVersion\\RunOnce", "HKEY_LOCAL_MACHINE"),
   ("Software\\Microsoft\\Windows\\CurrentVersion\\Run", "HKEY_CURRENT_USER"),
   ("Software\\Microsoft\\Windows\\CurrentVersion\\RunOnce", "HKEY_CURRENT_USER"),
   ("SOFTWARE\\Microsoft\\Windows\\CurrentVersion\\RunServices", "HKEY_LOCAL_MACHINE"),
   ("SOFTWARE\\Microsoft\\Windows\\CurrentVersion\\RunServicesOnce", "HKEY_LOCAL_MACHINE"),
   ("SOFTWARE\\Microsoft\\Windows NT\\CurrentVersion\\Winlogon\\Userinit", "HKEY_LOCAL_MACHINE"),
   ("SOFTWARE\\Microsoft\\Windows NT\\CurrentVersion\\Winlogon\\Shell", "HKEY_LOCAL_MACHINE"),
   ("SOFTWARE\\Microsoft\\Windows NT\\CurrentVersion\\Windows\\AppInit_DLLs", "HKEY_LOCAL_MACHINE")]

/-- Fixed sensitive keys, registry/collector.rs lines 72-79. -/
def SENSITIVE_KEYS : List (String × String) :=
  [("SOFTWARE\\Microsoft\\Windows\\CurrentVersion\\Policies", "HKEY_LOCAL_MACHINE"),
   ("SOFTWARE\\Policies\\Microsoft\\Windows\\System", "HKEY_LOCAL_MACHINE"),
   ("SYSTEM\\CurrentControlSet\\Services", "HKEY_LOCAL_MACHINE"),
   ("SOFTWARE\\Microsoft\\Windows\\CurrentVersion\\Explorer\\ShellExecuteHooks", "HKEY_LOCAL_MACHINE"),
   ("SOFTWARE\\Microsoft\\Windows NT\\CurrentVersion\\Image File Execution Options", "HKEY_LOCAL_MACHINE"),
   ("SOFTWARE\\Microsoft\\Windows NT\\CurrentVersion\\SilentProcessExit", "HKEY_LOCAL_MACHINE")]

/-- Autorun diff cache: the HashMap from cache-key string to
last-observed data, modelled as an association list; get is first-match
lookup, insert replaces in place or appends. -/
abbrev Cache := List (String × String)

/-- Lookup in the autorun cache (HashMap::get). -/
def Cache.get? (c : Cache) (k : String) : Option String :=
  (c.find? (fun kv => kv.1 = k)).map (fun kv => kv.2)

/-- Insertion in the autorun cache (HashMap::insert): the first binding
of the key is replaced; an unbound key is appended. -/
def Cache.insert (c : Cache) (k v : String) : Cache :=
  match c with
  | [] => [(k, v)]
  | kv :: rest =>
    if kv.1 = k then (k, v) :: rest
    else kv :: Cache.insert rest k v

/-- One registry value observed while enumerating an autorun location
during the pull/diff pass: the location it was read from and the value
name and data decoded from the enumeration buffers. -/
structure AutorunObservation where
  subkey : String
  hive : String
  name : String
  data : String
deriving DecidableEq, Repr

/-- Processing of one observed autorun value against the cache:
registry/collector.rs lines 250-288. Computes the key path
(hive backslash subkey) and cache key (key path backslash name),
synthesizes a Created event (cache miss) or a Modified event carrying
old and new data (cache hit with different data) or nothing (unchanged),
each through the builder with .ok() (Except.toOption) applied and the
resulting double Option flattened as in the source, and finally inserts
the current data into the cache unconditionally. genId and now stand
for the uuid and clock read at the build site. -/
def processAutorunValue (hostname genId : String) (now : Timestamp)
    (cache : Cache) (o : AutorunObservation) :
    Option RegistryEvent × Cache :=
  let key_path := o.hive ++ "\\" ++ o.subkey
  let cache_key := key_path ++ "\\" ++ o.name
  let event : Option (Option RegistryEvent) :=
    match Cache.get? cache cache_key with
    | some old_data =>
      if old_data ≠ o.data then
        some (RegistryEventBuilder.build
          { id := some genId, timestamp := some now,
            source := some hostname, category := some "registry",
            event_type := some .Modified, key_path := some key_path,
            value_name := some o.name, old_data := some old_data,
            new_data := some o.data } genId).toOption
      else none
    | none =>
      some (RegistryEventBuilder.build
        { id := some genId, timestamp := some now,
          source := some hostname, category := some "registry",
          event_type := some .Created, key_path := some key_path,
          value_name := some o.name,
          new_data := some o.data } genId).toOption
  (event.join, Cache.insert cache cache_key o.data)

/-- Pull/diff pass over a list of observed autorun values
(check_autorun_entries, registry/collector.rs lines 201-301): each
observation is processed in order against the evolving cache, and the
successfully built events are collected in observation order. The
entropy stream supplies the uuid and clock reading consumed at step k. -/
def check_autorun_entries (hostname : String)
    (entropy : Nat → String × Timestamp) (k : Nat) :
    List AutorunObservation → Cache → List RegistryEvent × Cache
  | [], cache => ([], cache)
  | o :: rest, cache =>
    let gen := entropy k
    let step := processAutorunValue hostname gen.1 gen.2 cache o
    let tail := check_autorun_entries hostname entropy (k + 1) rest step.2
    (step.1.toList ++ tail.1, tail.2)

/-- Suspicious-operation classifier
(check_suspicious_operations, registry/collector.rs lines 303-349).
First, when the event carries new data, the suspicious patterns are
scanned in order and the first one contained case-insensitively in the
data returns the High-severity build result immediately (the source
returns build().ok() there, so no fall-through to the path check).
Otherwise the configured autorun paths are scanned in order and the
first one contained in the key path returns the Medium-severity build
result. Otherwise none. The source method takes an immutable borrow of
the collector, so it can mutate neither the event nor the cache; the
model is accordingly a pure function. -/
def check_suspicious_operations (config : RegistryConfig)
    (hostname genId : String) (e : RegistryEvent) :
    Option SuspiciousRegistryOperation :=
  let pathCheck : Option SuspiciousRegistryOperation :=
    match config.autorun_paths.find? (fun p => substrContains e.key_path p) with
    | some path =>
      (SuspiciousRegistryOperationBuilder.build
        { id := some genId, timestamp := some e.timestamp,
          source := some hostname,
          category := some "registry_suspicious",
          operation := some e.event_type.debugFmt,
          key_path := some e.key_path,
          value_name := some (e.value_name.getD ""),
          data := some (e.new_data.getD ""),
          process_name := some (e.process_name.getD ""),
          process_id := some (e.process_id.getD 0),
          severity_level := some .Medium,
          reason := some ("Modification to sensitive registry path: " ++ path) }
        genId).toOption
    | none => none
  match e.new_data with
  | some data =>
    match config.suspicious_patterns.find?
        (fun pat => substrContains (strToLower data) (strToLower pat)) with
    | some pattern =>
      (SuspiciousRegistryOperationBuilder.build
        { id := some genId, timestamp := some e.timestamp,
          source := some hostname,
          category := some "registry_suspicious",
          operation := some e.event_type.debugFmt,
          key_path := some e.key_path,
          value_name := some (e.value_name.getD ""),
          data := some data,
          process_name := some (e.process_name.getD ""),
          process_id := some (e.process_id.getD 0),
          severity_level := some .High,
          reason := some ("Suspicious command pattern detected: " ++ pattern) }
        genId).toOption
    | none => pathCheck
  | none => pathCheck

/-- Push-path drain loop inside collect, registry/collector.rs lines
366-373: events are taken from the channel queue one at a time and the
loop breaks as soon as the running count (the count parameter) reaches
max_events_per_collection, with the limit test performed after the push. -/
def drain_push (maxEvents : Nat) :
    List RegistryEvent → Nat → List RegistryEvent
  | [], _ => []
  | e :: rest, count =>
    if count + 1 ≥ maxEvents then [e]
    else e :: drain_push maxEvents rest (count + 1)

/-- The collect method of the registry collector,
registry/collector.rs lines 362-389: drain the push-path channel up to
the configured maximum, run the pull/diff pass, append its events after
the push-path events, and return the combination together with the
updated cache. (The trailing suspicious-operation loop of the source
only logs warnings and does not alter the returned events.) -/
def collect (config : RegistryConfig) (hostname : String)
    (entropy : Nat → String × Timestamp)
    (queue : List RegistryEvent) (obs : List AutorunObservation)
    (cache : Cache) : List RegistryEvent × Cache :=
  let pushed := drain_push config.settings.max_events_per_collection queue 0
  let diff := check_autorun_entries hostname entropy 0 obs cache
  (pushed ++ diff.1, diff.2)

/-- Event synthesized by the push-path background loop for a signalled
wait handle, registry/collector.rs lines 153-164: a Modified event with
a fresh uuid, the current time, the host source, category registry and
the canonical hive backslash subkey path of the handle. The source
panics if this build fails. -/
def push_event_build (hostname genId : String) (now : Timestamp)
    (hive subkey : String) : Except String RegistryEvent :=
  RegistryEventBuilder.build
    { id := some genId, timestamp := some now, source := some hostname,
      category := some "registry", event_type := some .Modified,
      key_path := some (hive ++ "\\" ++ subkey) } genId

end RegistryCollector

/-! ## Filesystem collector (src/features/filesystem/collector.rs) -/

namespace FileSystemCollector

/-- Capacity of the bounded notification channel created in new,
filesystem/collector.rs line 70. -/
def channel_capacity : Nat := 100

/-- State of the bounded tokio channel together with the asynchronous
send tasks spawned by the watcher callback. buffer holds the messages
currently in the channel (at most capacity); pendingSends holds the
messages of spawned send tasks that are awaiting channel capacity;
warnings counts the warn-level logs emitted by failed sends; dropped
counts messages discarded outright (no code path does this). -/
structure BoundedChannel (α : Type) where
  capacity : Nat
  buffer : List α
  pendingSends : List α
  closed : Bool
  warnings : Nat
  dropped : Nat
deriving Repr

/-- Fresh open channel of the given capacity. -/
def BoundedChannel.empty (α : Type) (cap : Nat) : BoundedChannel α :=
  { capacity := cap, buffer := [], pendingSends := [], closed := false,
    warnings := 0, dropped := 0 }

/-- Effect of the watcher callback for one notification,
filesystem/collector.rs lines 74-82: the callback spawns a task that
awaits tx.send. The producer itself never blocks. The awaited send
fails (and the task logs a warning) only when the receiver is closed;
with capacity available it enqueues the message; with the channel full
it parks the message in the pending send task until capacity frees
— the message is retained, not dropped. -/
def watcher_push {α : Type} (ch : BoundedChannel α) (v : α) : BoundedChannel α :=
  if ch.closed then { ch with warnings := ch.warnings + 1 }
  else if ch.buffer.length < ch.capacity then { ch with buffer := ch.buffer ++ [v] }
  else { ch with pendingSends := ch.pendingSends ++ [v] }

/-- Sequence of watcher callbacks for a list of notifications. -/
def watcher_push_all {α : Type} (ch : BoundedChannel α) (vs : List α) :
    BoundedChannel α :=
  vs.foldl watcher_push ch

/-- Extension filter, should_monitor_file in filesystem/collector.rs
lines 142-153: a file is monitored iff it has an extension and the dot
plus extension string is in the configured extension list; a file
without extension is never monitored. -/
def should_monitor_file (extensions : List String) (ext : Option String) : Bool :=
  match ext with
  | some e => extensions.contains ("." ++ e)
  | none => false

/-- Notification kinds of the notify crate that process_event
distinguishes: Create, Modify, Remove and everything else. -/
inductive NotifyKind where
  | Create
  | Modify
  | Remove
  | Other
deriving DecidableEq, Repr

/-- Mapping from a notify crate notification kind to the file event
kind, the match over event.kind in process_event
(filesystem/collector.rs lines 178-183): Create, Modify and Remove map
to Created, Modified and Deleted; every other kind yields none and the
notification is skipped. -/
def map_event_kind : NotifyKind → Option FileEventType
  | .Create => some .Created
  | .Modify => some .Modified
  | .Remove => some .Deleted
  | .Other => none

/-- What the filesystem tells process_event about one affected path:
the rendered path string, the extension component, whether the path is
currently a directory, the stat outcome (file type string and size,
none when the metadata call fails) and the best-effort content hash. -/
structure PathInfo where
  pathStr : String
  extension : Option String
  isDir : Bool
  stat : Option (String × Nat)
  hash : Option String
deriving DecidableEq, Repr

/-- Per-notification processing, process_event in
filesystem/collector.rs lines 168-210: take the first path of the
notification (none yields no event); skip non-directories whose
extension is not accepted; map the notification kind to
Created/Modified/Deleted (other kinds yield no event); stat the path
(failure yields no event); build the event with a fresh uuid, the
current time, the hostname, category filesystem, the stat file type
and size, the hash (empty string when hashing failed) and the process
info (0 and unknown when unresolved); a build failure yields no event. -/
def process_event (extensions : List String) (hostname genId : String)
    (now : Timestamp) (procInfo : Option (Nat × String))
    (kind : NotifyKind) (paths : List PathInfo) : Option FileEvent :=
  match paths.head? with
  | none => none
  | some p =>
    if !p.isDir && !(should_monitor_file extensions p.extension) then none
    else
      match map_event_kind kind with
      | none => none
      | some et =>
        match p.stat with
        | none => none
        | some info =>
          let proc := procInfo.getD (0, "unknown")
          (FileEventBuilder.build
            { id := some genId, timestamp := some now,
              source := some hostname, category := some "filesystem",
              event_type := some et, path := some p.pathStr,
              file_type := some info.1, file_size := some info.2,
              hash := some ((p.hash).getD ""),
              process_id := some proc.1,
              process_name := some proc.2 }).toOption

end FileSystemCollector

/-! ## Shared helper lemmas -/

/-- A string append is nonempty whenever its right part is nonempty. -/
theorem str_append_ne_empty_right (s t : String) (h : t ≠ "") : s ++ t ≠ "" := by
  intro hc
  apply h
  have hd := congrArg String.data hc
  simp [String.data_append] at hd
  exact String.ext hd.2

/-- A string append is nonempty whenever its left part is nonempty. -/
theorem str_append_ne_empty_left (s t : String) (h : s ≠ "") : s ++ t ≠ "" := by
  intro hc
  apply h
  have hd := congrArg String.data hc
  simp [String.data_append] at hd
  exact String.ext hd.1

/-- A hive backslash subkey path is never the empty string. -/
theorem backslash_path_ne_empty (a b : String) : a ++ "\\" ++ b ≠ "" := by
  apply str_append_ne_empty_left
  apply str_append_ne_empty_right
  decide

namespace RegistryCollector

/-- Looking up the inserted key finds the inserted value. -/
theorem Cache.get?_insert_self (c : Cache) (k v : String) :
    Cache.get? (Cache.insert c k v) k = some v := by
  induction c with
  | nil => simp [Cache.insert, Cache.get?, List.find?]
  | cons kv rest ih =>
    by_cases h : kv.1 = k
    · simp [Cache.insert, h, Cache.get?, List.find?]
    · simpa [Cache.insert, h, Cache.get?, List.find?] using ih

/-- Looking up any other key is unaffected by an insertion. -/
theorem Cache.get?_insert_ne (c : Cache) (k v k' : String) (h : k' ≠ k) :
    Cache.get? (Cache.insert c k v) k' = Cache.get? c k' := by
  induction c with
  | nil => simp [Cache.insert, Cache.get?, List.find?, Ne.symm h]
  | cons kv rest ih =>
    by_cases hk : kv.1 = k
    · subst hk
      simp [Cache.insert, Cache.get?, List.find?, Ne.symm h, h]
    · by_cases hk' : kv.1 = k'
      · simp [Cache.insert, hk, Cache.get?, List.find?, hk', h]
      · simpa [Cache.insert, hk, Cache.get?, List.find?, hk'] using ih

/-- Re-inserting the value a key already maps to changes no lookup. -/
theorem Cache.get?_insert_of_get? (c : Cache) (k v : String)
    (h : Cache.get? c k = some v) (k' : String) :
    Cache.get? (Cache.insert c k v) k' = Cache.get? c k' := by
  by_cases hk : k' = k
  · subst hk
    rw [Cache.get?_insert_self, h]
  · exact Cache.get?_insert_ne c k v k' hk

/-- After processing an observation, the cache maps its cache key to
the observed data (the second component is always the insertion of the
current data, whatever event was produced). -/
theorem processAutorunValue_cache_get? (hostname genId : String)
    (now : Timestamp) (cache : Cache) (o : AutorunObservation) :
    Cache.get? (processAutorunValue hostname genId now cache o).2
      (o.hive ++ "\\" ++ o.subkey ++ "\\" ++ o.name) = some o.data :=
  Cache.get?_insert_self cache _ o.data

end RegistryCollector

/-- Unfolding of the registry event builder when every required field is
supplied and the key path is nonempty: the build succeeds and returns
exactly the assembled event, with the id defaulted from the generator. -/
theorem RegistryEventBuilder.build_all_some (genId : String) (i : Option String)
    (ts : Timestamp) (src cat : String) (et : RegistryEventType) (kp : String)
    (vn od nd pn : Option String) (pid : Option Nat) (h : kp ≠ "") :
    RegistryEventBuilder.build
      { id := i, timestamp := some ts, source := some src,
        category := some cat, event_type := some et, key_path := some kp,
        value_name := vn, old_data := od, new_data := nd,
        process_name := pn, process_id := pid } genId
    = Except.ok
        { id := i.getD genId, timestamp := ts, source := src,
          category := cat, event_type := et, key_path := kp,
          value_name := vn, old_data := od, new_data := nd,
          process_name := pn, process_id := pid } := by
  simp [RegistryEventBuilder.build, validateThen, RegistryEvent.validate, h]

/-- Success characterization of validateThen: the record passes its
invariant check and is returned unchanged. -/
theorem validateThen_ok {α : Type} (v : α → Except String Unit) (a b : α) :
    validateThen v a = .ok b ↔ (v a = .ok () ∧ a = b) := by
  unfold validateThen
  split
  · rename_i msg heq
    simp [heq]
  · rename_i u heq
    cases u
    simp [heq]

/-- Success characterization of the file event invariant check. -/
theorem fileEvent_validate_ok_iff (e : FileEvent) :
    e.validate = .ok () ↔
      (e.path ≠ "" ∧ e.new_path ≠ some "" ∧ e.file_type ≠ "" ∧
        e.file_size ≠ some 0) := by
  unfold FileEvent.validate
  split_ifs <;> simp_all

/-- Success characterization of the registry event invariant check. -/
theorem registryEvent_validate_ok_iff (e : RegistryEvent) :
    e.validate = .ok () ↔ e.key_path ≠ "" := by
  unfold RegistryEvent.validate
  split_ifs <;> simp_all

/-- Success characterization of the suspicious-operation invariant
check. -/
theorem suspiciousOp_validate_ok_iff
    (o : SuspiciousRegistryOperation) :
    o.validate = .ok () ↔
      (o.operation ≠ "" ∧ o.key_path ≠ "" ∧ o.reason ≠ "") := by
  unfold SuspiciousRegistryOperation.validate
  split_ifs <;> simp_all

/-- Inversion of a successful file event build: every required field of
the builder was present, the event carries exactly the builder fields,
and the event passed validation. -/
theorem fileBuilder_build_ok (b : FileEventBuilder) (e : FileEvent)
    (h : b.build = .ok e) :
    b.id = some e.id ∧ b.timestamp = some e.timestamp ∧
      b.path = some e.path ∧ b.new_path = e.new_path ∧
      b.file_size = e.file_size ∧ e.validate = .ok () := by
  unfold FileEventBuilder.build at h
  split at h
  · rw [validateThen_ok] at h
    obtain ⟨hv, he⟩ := h
    subst he
    simp_all
  all_goals simp_all

/-- Inversion of a successful registry event build: the id is the
builder id defaulted from the generator, the required fields were
present and carried over, and the event passed validation. -/
theorem registryBuilder_build_ok (b : RegistryEventBuilder)
    (genId : String) (e : RegistryEvent) (h : b.build genId = .ok e) :
    e.id = b.id.getD genId ∧ b.timestamp = some e.timestamp ∧
      b.key_path = some e.key_path ∧ e.validate = .ok () := by
  unfold RegistryEventBuilder.build at h
  split at h
  · rw [validateThen_ok] at h
    obtain ⟨hv, he⟩ := h
    subst he
    simp_all
  all_goals simp_all

/-! ## Claim theorems -/

open RegistryCollector in
/-- C1: for every autorun registry value observed during a pull/diff
pass, with the cache keyed by the key path and value name: a cache miss
produces a Created event carrying the current data as new data; a cache
hit with different data produces a Modified event carrying the cached
data as old data and the current data as new data; a cache hit with
identical data produces no event; and in all three cases the cache
entry is set to the current data afterwards. -/
theorem c1_autorun_diff_outcomes (hostname genId : String) (now : Timestamp)
    (cache : Cache) (o : AutorunObservation) :
    (Cache.get? cache (o.hive ++ "\\" ++ o.subkey ++ "\\" ++ o.name) = none →
      (processAutorunValue hostname genId now cache o).1 =
        some { id := genId, timestamp := now, source := hostname,
               category := "registry", event_type := .Created,
               key_path := o.hive ++ "\\" ++ o.subkey,
               value_name := some o.name, old_data := none,
               new_data := some o.data, process_name := none,
               process_id := none }) ∧
    (∀ old : String,
      Cache.get? cache (o.hive ++ "\\" ++ o.subkey ++ "\\" ++ o.name) = some old →
      old ≠ o.data →
      (processAutorunValue hostname genId now cache o).1 =
        some { id := genId, timestamp := now, source := hostname,
               category := "registry", event_type := .Modified,
               key_path := o.hive ++ "\\" ++ o.subkey,
               value_name := some o.name, old_data := some old,
               new_data := some o.data, process_name := none,
               process_id := none }) ∧
    (Cache.get? cache (o.hive ++ "\\" ++ o.subkey ++ "\\" ++ o.name) = some o.data →
      (processAutorunValue hostname genId now cache o).1 = none) ∧
    Cache.get? (processAutorunValue hostname genId now cache o).2
      (o.hive ++ "\\" ++ o.subkey ++ "\\" ++ o.name) = some o.data := by
  have hkp : o.hive ++ "\\" ++ o.subkey ≠ "" :=
    backslash_path_ne_empty o.hive o.subkey
  refine ⟨?_, ?_, ?_, ?_⟩
  · intro hnone
    simp [processAutorunValue, hnone, RegistryEventBuilder.build,
      validateThen, RegistryEvent.validate, hkp, Except.toOption]
  · intro old hold hne
    simp [processAutorunValue, hold, hne, RegistryEventBuilder.build,
      validateThen, RegistryEvent.validate, hkp, Except.toOption]
  · intro hsame
    simp [processAutorunValue, hsame]
  · exact processAutorunValue_cache_get? hostname genId now cache o

open RegistryCollector in
/-- Witness for c1_autorun_diff_outcomes: a first observation of the
value app under HKLM Run with a fresh cache yields the Created event,
and an observation against a cache holding different data yields the
Modified event carrying both the old and the new data. -/
theorem c1_autorun_diff_outcomes_witness :
    (processAutorunValue "host" "id0" 0 []
        { subkey := "Run", hive := "HKLM", name := "app", data := "cmd" }).1 =
      some { id := "id0", timestamp := 0, source := "host",
             category := "registry", event_type := .Created,
             key_path := "HKLM" ++ "\\" ++ "Run", value_name := some "app",
             old_data := none, new_data := some "cmd",
             process_name := none, process_id := none } ∧
    (processAutorunValue "host" "id1" 1 [("HKLM" ++ "\\" ++ "Run" ++ "\\" ++ "app", "old")]
        { subkey := "Run", hive := "HKLM", name := "app", data := "cmd" }).1 =
      some { id := "id1", timestamp := 1, source := "host",
             category := "registry", event_type := .Modified,
             key_path := "HKLM" ++ "\\" ++ "Run", value_name := some "app",
             old_data := some "old", new_data := some "cmd",
             process_name := none, process_id := none } :=
  ⟨(c1_autorun_diff_outcomes "host" "id0" 0 []
      { subkey := "Run", hive := "HKLM", name := "app", data := "cmd" }).1 rfl,
   (c1_autorun_diff_outcomes "host" "id1" 1
      [("HKLM" ++ "\\" ++ "Run" ++ "\\" ++ "app", "old")]
      { subkey := "Run", hive := "HKLM", name := "app", data := "cmd" }).2.1
     "old" (by decide) (by decide)⟩

open RegistryCollector in
/-- C2: the diff cache is idempotent under an unchanged observation.
After any first pass over an observation, a second pass over the same
observation (same key path, value name and data) produces no event, and
every cache lookup after the second pass agrees with the cache after
the first pass. -/
theorem c2_diff_cache_idempotent (hostname g1 g2 : String) (t1 t2 : Timestamp)
    (cache : Cache) (o : AutorunObservation) :
    (processAutorunValue hostname g2 t2
        (processAutorunValue hostname g1 t1 cache o).2 o).1 = none ∧
    (∀ k : String,
      Cache.get?
        (processAutorunValue hostname g2 t2
          (processAutorunValue hostname g1 t1 cache o).2 o).2 k =
      Cache.get? (processAutorunValue hostname g1 t1 cache o).2 k) := by
  have hget : Cache.get? (processAutorunValue hostname g1 t1 cache o).2
      (o.hive ++ "\\" ++ o.subkey ++ "\\" ++ o.name) = some o.data :=
    processAutorunValue_cache_get? hostname g1 t1 cache o
  constructor
  · simp [processAutorunValue] at hget ⊢
    simp [hget]
  · intro k
    have h2 :
        (processAutorunValue hostname g2 t2
          (processAutorunValue hostname g1 t1 cache o).2 o).2 =
        Cache.insert (processAutorunValue hostname g1 t1 cache o).2
          (o.hive ++ "\\" ++ o.subkey ++ "\\" ++ o.name) o.data := rfl
    rw [h2]
    exact Cache.get?_insert_of_get? _ _ _ hget k

/-- C3 counterexample: a file event builder carrying every required
field except id (with invariant-satisfying values, timestamp included)
still fails, and the error names id — so build does fail merely because
id was absent, refuting the claim that both builders fill a generated
id and timestamp. -/
theorem c3_counterexample :
    FileEventBuilder.build
      { timestamp := some 0, source := some "host",
        category := some "filesystem", event_type := some .Created,
        path := some "C:/a.txt", file_type := some "file" }
      = .error "id is required" := rfl

/-- C3 amended: only the registry event builder fills a generated id
when id is absent; timestamp is required by both builders, and the file
event builder also requires id; for the required fields the build error
names the first missing one in unwrap order. -/
theorem c3_build_required_fields :
    (∀ (b : RegistryEventBuilder) (genId : String) (e : RegistryEvent),
      b.id = none → b.build genId = .ok e → e.id = genId) ∧
    (∀ (b : RegistryEventBuilder) (genId : String),
      b.timestamp = none → b.build genId = .error "timestamp is required") ∧
    (∀ b : FileEventBuilder, b.id = none → b.build = .error "id is required") ∧
    (∀ b : FileEventBuilder, b.id ≠ none → b.timestamp = none →
      b.build = .error "timestamp is required") := by
  refine ⟨?_, ?_, ?_, ?_⟩
  · intro b genId e hid h
    have hinv := registryBuilder_build_ok b genId e h
    rw [hinv.1, hid]
    rfl
  · intro b genId h
    unfold RegistryEventBuilder.build
    split <;> simp_all
  · intro b h
    unfold FileEventBuilder.build
    split <;> simp_all
  · intro b hid h
    unfold FileEventBuilder.build
    split <;> simp_all

/-- Witness for c3_build_required_fields at concrete builders: a
registry builder without id builds with the generated id, an empty
registry builder fails on timestamp, an empty file builder fails on id,
and a file builder with only an id fails on timestamp. -/
theorem c3_build_required_fields_witness :
    ({ id := "gen0", timestamp := 0, source := "h", category := "registry",
       event_type := .Modified, key_path := "HKLM" ++ "\\" ++ "Run",
       value_name := none, old_data := none, new_data := none,
       process_name := none, process_id := none } : RegistryEvent).id = "gen0" ∧
    RegistryEventBuilder.build { } "g" = .error "timestamp is required" ∧
    FileEventBuilder.build { } = .error "id is required" ∧
    FileEventBuilder.build { id := some "i" } = .error "timestamp is required" := by
  refine ⟨?_, ?_, ?_, ?_⟩
  · exact c3_build_required_fields.1
      { timestamp := some 0, source := some "h", category := some "registry",
        event_type := some .Modified,
        key_path := some ("HKLM" ++ "\\" ++ "Run") } "gen0" _ rfl rfl
  · exact c3_build_required_fields.2.1 { } "g" rfl
  · exact c3_build_required_fields.2.2.1 { } rfl
  · exact c3_build_required_fields.2.2.2 { id := some "i" } (by simp) rfl

/-- C4: a builder input violating an invariant — empty path or key
path, a present zero file size, or a present empty rename target —
never yields an event (build returns the error side), and conversely
every event a build returns has a nonempty path or key path, no present
zero size and no present empty rename target. -/
theorem c4_invariant_enforcement :
    (∀ (b : FileEventBuilder) (e : FileEvent),
      (b.path = some "" ∨ b.new_path = some "" ∨ b.file_size = some 0) →
      b.build ≠ .ok e) ∧
    (∀ (b : FileEventBuilder) (e : FileEvent), b.build = .ok e →
      e.path ≠ "" ∧ e.new_path ≠ some "" ∧ e.file_size ≠ some 0) ∧
    (∀ (b : RegistryEventBuilder) (genId : String) (e : RegistryEvent),
      b.key_path = some "" → b.build genId ≠ .ok e) ∧
    (∀ (b : RegistryEventBuilder) (genId : String) (e : RegistryEvent),
      b.build genId = .ok e → e.key_path ≠ "") := by
  have hfile : ∀ (b : FileEventBuilder) (e : FileEvent), b.build = .ok e →
      e.path ≠ "" ∧ e.new_path ≠ some "" ∧ e.file_size ≠ some 0 := by
    intro b e h
    have hinv := fileBuilder_build_ok b e h
    have hv := (fileEvent_validate_ok_iff e).mp hinv.2.2.2.2.2
    exact ⟨hv.1, hv.2.1, hv.2.2.2⟩
  have hreg : ∀ (b : RegistryEventBuilder) (genId : String) (e : RegistryEvent),
      b.build genId = .ok e → e.key_path ≠ "" := by
    intro b genId e h
    have hinv := registryBuilder_build_ok b genId e h
    exact (registryEvent_validate_ok_iff e).mp hinv.2.2.2
  refine ⟨?_, hfile, ?_, hreg⟩
  · intro b e hbad h
    have hinv := fileBuilder_build_ok b e h
    have hv := hfile b e h
    rcases hbad with hp | hnp | hfs
    · rw [hinv.2.2.1] at hp
      exact hv.1 (Option.some_injective _ hp)
    · rw [hinv.2.2.2.1] at hnp
      exact hv.2.1 hnp
    · rw [hinv.2.2.2.2.1] at hfs
      exact hv.2.2 hfs
  · intro b genId e hkp h
    have hinv := registryBuilder_build_ok b genId e h
    rw [hinv.2.2.1] at hkp
    exact hreg b genId e h (Option.some_injective _ hkp)

/-- Witness for c4_invariant_enforcement at concrete builders: an
otherwise complete file builder with an empty path is rejected, a
successful file build satisfies the invariants, an otherwise complete
registry builder with an empty key path is rejected, and a successful
registry build has a nonempty key path. -/
theorem c4_invariant_enforcement_witness :
    FileEventBuilder.build
      { id := some "i", timestamp := some 0, source := some "h",
        category := some "filesystem", event_type := some .Created,
        path := some "", file_type := some "file" } ≠
      .ok { id := "i", timestamp := 0, source := "h",
            category := "filesystem", event_type := .Created, path := "",
            new_path := none, file_type := "file", file_size := none,
            permissions := none, hash := none, process_id := none,
            process_name := none } ∧
    ("C:/a.txt" : String) ≠ "" ∧
    RegistryEventBuilder.build
      { timestamp := some 0, source := some "h", category := some "registry",
        event_type := some .Modified, key_path := some "" } "g" ≠
      .ok { id := "g", timestamp := 0, source := "h", category := "registry",
            event_type := .Modified, key_path := "", value_name := none,
            old_data := none, new_data := none, process_name := none,
            process_id := none } ∧
    ("HKLM" ++ "\\" ++ "Run" : String) ≠ "" := by
  refine ⟨?_, ?_, ?_, ?_⟩
  · exact c4_invariant_enforcement.1 _ _ (Or.inl rfl)
  · exact (c4_invariant_enforcement.2.1
      { id := some "i", timestamp := some 0, source := some "h",
        category := some "filesystem", event_type := some .Created,
        path := some "C:/a.txt", file_type := some "file" }
      { id := "i", timestamp := 0, source := "h", category := "filesystem",
        event_type := .Created, path := "C:/a.txt", new_path := none,
        file_type := "file", file_size := none, permissions := none,
        hash := none, process_id := none, process_name := none } rfl).1
  · exact c4_invariant_enforcement.2.2.1 _ "g" _ rfl
  · exact c4_invariant_enforcement.2.2.2
      { timestamp := some 0, source := some "h", category := some "registry",
        event_type := some .Modified,
        key_path := some ("HKLM" ++ "\\" ++ "Run") } "g" _ rfl

/-- The Debug rendering of a registry event kind is never empty. -/
theorem RegistryEventType.debugFmt_ne_empty (t : RegistryEventType) :
    t.debugFmt ≠ "" := by
  cases t <;> decide

open RegistryCollector in
/-- C5: the suspicious-operation classifier performs two ordered checks
with first match winning. When the event carries new data containing
(case-insensitively) a configured pattern, it returns exactly the one
High-severity operation citing the first matching pattern; otherwise,
when the key path contains a configured sensitive path, it returns
exactly the one Medium-severity operation citing the first matching
path; otherwise it returns nothing. The result is a single Option, so
an event matching both checks yields exactly one High operation and
never two; and the classifier is a pure function of the event and
configuration (the source takes an immutable borrow), so it mutates
neither the event nor the cache. -/
theorem c5_classifier_precedence (config : RegistryConfig)
    (hostname genId : String) (e : RegistryEvent) (hkp : e.key_path ≠ "") :
    (∀ data pattern, e.new_data = some data →
      config.suspicious_patterns.find?
        (fun pat => substrContains (strToLower data) (strToLower pat)) = some pattern →
      check_suspicious_operations config hostname genId e =
        some { id := genId, timestamp := e.timestamp, source := hostname,
               category := "registry_suspicious",
               operation := e.event_type.debugFmt, key_path := e.key_path,
               value_name := some (e.value_name.getD ""),
               data := some data,
               process_name := some (e.process_name.getD ""),
               process_id := some (e.process_id.getD 0),
               severity_level := .High,
               reason := "Suspicious command pattern detected: " ++ pattern }) ∧
    (∀ path,
      (∀ data, e.new_data = some data →
        config.suspicious_patterns.find?
          (fun pat => substrContains (strToLower data) (strToLower pat)) = none) →
      config.autorun_paths.find? (fun p => substrContains e.key_path p) = some path →
      check_suspicious_operations config hostname genId e =
        some { id := genId, timestamp := e.timestamp, source := hostname,
               category := "registry_suspicious",
               operation := e.event_type.debugFmt, key_path := e.key_path,
               value_name := some (e.value_name.getD ""),
               data := some (e.new_data.getD ""),
               process_name := some (e.process_name.getD ""),
               process_id := some (e.process_id.getD 0),
               severity_level := .Medium,
               reason := "Modification to sensitive registry path: " ++ path }) ∧
    ((∀ data, e.new_data = some data →
        config.suspicious_patterns.find?
          (fun pat => substrContains (strToLower data) (strToLower pat)) = none) →
      config.autorun_paths.find? (fun p => substrContains e.key_path p) = none →
      check_suspicious_operations config hostname genId e = none) := by
  have hop := RegistryEventType.debugFmt_ne_empty e.event_type
  refine ⟨?_, ?_, ?_⟩
  · intro data pattern hdata hfind
    have hrsn : ("Suspicious command pattern detected: " ++ pattern : String) ≠ "" :=
      str_append_ne_empty_left _ _ (by decide)
    simp [check_suspicious_operations, hdata, hfind,
      SuspiciousRegistryOperationBuilder.build, validateThen,
      SuspiciousRegistryOperation.validate, hkp, hop, hrsn, Except.toOption]
  · intro path hnopat hfind
    have hrsn : ("Modification to sensitive registry path: " ++ path : String) ≠ "" :=
      str_append_ne_empty_left _ _ (by decide)
    cases hnd : e.new_data with
    | none =>
      simp [check_suspicious_operations, hnd, hfind,
        SuspiciousRegistryOperationBuilder.build, validateThen,
        SuspiciousRegistryOperation.validate, hkp, hop, hrsn, Except.toOption]
    | some data =>
      simp [check_suspicious_operations, hnd, hnopat data hnd, hfind,
        SuspiciousRegistryOperationBuilder.build, validateThen,
        SuspiciousRegistryOperation.validate, hkp, hop, hrsn, Except.toOption]
  · intro hnopat hfind
    cases hnd : e.new_data with
    | none => simp [check_suspicious_operations, hnd, hfind]
    | some data =>
      simp [check_suspicious_operations, hnd, hnopat data hnd, hfind]

open RegistryCollector in
/-- Witness for c5_classifier_precedence: an event whose data contains
the configured pattern (case-insensitively) and whose key path also
contains the configured sensitive path yields exactly the one
High-severity operation citing the pattern — the pattern check wins. -/
theorem c5_classifier_precedence_witness :
    check_suspicious_operations
      { autorun_paths := ["Run"], suspicious_patterns := ["cmd.exe"],
        settings := { check_interval_ms := 1000,
                      max_events_per_collection := 100 } }
      "host" "g0"
      { id := "e0", timestamp := 7, source := "host", category := "registry",
        event_type := .Modified,
        key_path := "HKEY_LOCAL_MACHINE\\SOFTWARE\\Microsoft\\Windows\\CurrentVersion\\Run",
        value_name := some "app", old_data := none,
        new_data := some "CMD.EXE /c payload", process_name := none,
        process_id := none } =
      some { id := "g0", timestamp := 7, source := "host",
             category := "registry_suspicious", operation := "Modified",
             key_path := "HKEY_LOCAL_MACHINE\\SOFTWARE\\Microsoft\\Windows\\CurrentVersion\\Run",
             value_name := some "app", data := some "CMD.EXE /c payload",
             process_name := some "", process_id := some 0,
             severity_level := .High,
             reason := "Suspicious command pattern detected: " ++ "cmd.exe" } :=
  (c5_classifier_precedence
    { autorun_paths := ["Run"], suspicious_patterns := ["cmd.exe"],
      settings := { check_interval_ms := 1000,
                    max_events_per_collection := 100 } }
    "host" "g0"
    { id := "e0", timestamp := 7, source := "host", category := "registry",
      event_type := .Modified,
      key_path := "HKEY_LOCAL_MACHINE\\SOFTWARE\\Microsoft\\Windows\\CurrentVersion\\Run",
      value_name := some "app", old_data := none,
      new_data := some "CMD.EXE /c payload", process_name := none,
      process_id := none } (by decide)).1
    "CMD.EXE /c payload" "cmd.exe" rfl (by decide)

namespace RegistryCollector

/-- While the running count is below the maximum, the push-path drain
takes a prefix of the queue: exactly the remaining budget. -/
theorem drain_push_take (maxE : Nat) (q : List RegistryEvent) :
    ∀ count : Nat, count < maxE →
      drain_push maxE q count = q.take (maxE - count) := by
  induction q with
  | nil =>
    intro count h
    simp [drain_push]
  | cons e rest ih =>
    intro count h
    unfold drain_push
    by_cases hc : count + 1 ≥ maxE
    · have h1 : maxE - count = 1 := by omega
      simp [hc, h1]
    · have h2 : count + 1 < maxE := by omega
      rw [if_neg hc, ih (count + 1) h2]
      have h3 : maxE - count = (maxE - (count + 1)) + 1 := by omega
      rw [h3, List.take_succ_cons]

/-- A concrete push-path event used by the collect examples. -/
def pushSample (n : Nat) : RegistryEvent :=
  { id := toString n, timestamp := n, source := "host",
    category := "registry", event_type := .Modified,
    key_path := "HKLM" ++ "\\" ++ "Run", value_name := none,
    old_data := none, new_data := none, process_name := none,
    process_id := none }

end RegistryCollector

open RegistryCollector in
/-- C6 counterexample: with max_events_per_collection configured as 0
and one event queued on the push path, collect still returns that push
event — the drain does not stop once the configured maximum (zero) is
reached, because the limit is only tested after an event has been
taken. -/
theorem c6_counterexample :
    (RegistryCollector.collect
        { autorun_paths := [], suspicious_patterns := [],
          settings := { check_interval_ms := 1000,
                        max_events_per_collection := 0 } }
        "host" (fun k => (toString k, k)) [pushSample 0] [] []).1 =
      [pushSample 0] ∧
    ({ check_interval_ms := 1000,
       max_events_per_collection := 0 } : RegistrySettings).max_events_per_collection
      = 0 :=
  ⟨rfl, rfl⟩

open RegistryCollector in
/-- C6 amended: whenever the configured maximum events per collection
is at least one, collect first drains at most that many events from the
push-path channel (the drained prefix is exactly the queue truncated to
the maximum, preserving arrival order), then appends the pull/diff
events after the push-path events and returns the concatenation; with
the maximum zero a single push event is still drained, since the limit
is tested only after a push. With 2 push-path events queued, 1 diff
event produced and the maximum at least 2, the result is exactly
push#1, push#2, diff#1 in that order. -/
theorem c6_collect_order (config : RegistryConfig) (hostname : String)
    (entropy : Nat → String × Timestamp) (queue : List RegistryEvent)
    (obs : List AutorunObservation) (cache : Cache)
    (hmax : 1 ≤ config.settings.max_events_per_collection) :
    (collect config hostname entropy queue obs cache).1 =
      queue.take config.settings.max_events_per_collection ++
        (check_autorun_entries hostname entropy 0 obs cache).1 := by
  unfold collect
  rw [drain_push_take config.settings.max_events_per_collection queue 0
    (by omega)]
  simp

open RegistryCollector in
/-- Witness for c6_collect_order: two queued push-path events and one
diff-producing observation yield exactly the order push#1, push#2,
diff#1. -/
theorem c6_collect_order_witness :
    (RegistryCollector.collect
        { autorun_paths := [], suspicious_patterns := [],
          settings := { check_interval_ms := 1000,
                        max_events_per_collection := 100 } }
        "host" (fun k => (toString k, k))
        [pushSample 0, pushSample 1]
        [{ subkey := "Run", hive := "HKLM", name := "app", data := "cmd" }]
        []).1 =
      [pushSample 0, pushSample 1,
       { id := "0", timestamp := 0, source := "host", category := "registry",
         event_type := .Created, key_path := "HKLM" ++ "\\" ++ "Run",
         value_name := some "app", old_data := none, new_data := some "cmd",
         process_name := none, process_id := none }] := by
  rw [c6_collect_order
    { autorun_paths := [], suspicious_patterns := [],
      settings := { check_interval_ms := 1000,
                    max_events_per_collection := 100 } }
    "host" (fun k => (toString k, k))
    [pushSample 0, pushSample 1]
    [{ subkey := "Run", hive := "HKLM", name := "app", data := "cmd" }]
    [] (by decide)]
  rfl

namespace FileSystemCollector

/-- Behaviour of a run of watcher callbacks on an open channel whose
buffer respects the capacity and whose pending sends exist only when
the buffer is full: the buffer absorbs messages up to the remaining
capacity and every further message is parked in a pending send task; no
message is dropped and no warning is emitted. -/
theorem watcher_push_all_spec {α : Type} (vs : List α) :
    ∀ ch : BoundedChannel α, ch.closed = false →
      ch.buffer.length ≤ ch.capacity →
      (ch.pendingSends ≠ [] → ch.buffer.length = ch.capacity) →
      watcher_push_all ch vs =
        { capacity := ch.capacity,
          buffer := ch.buffer ++ vs.take (ch.capacity - ch.buffer.length),
          pendingSends :=
            ch.pendingSends ++ vs.drop (ch.capacity - ch.buffer.length),
          closed := false, warnings := ch.warnings,
          dropped := ch.dropped } := by
  induction vs with
  | nil =>
    intro ch hc hl hp
    simp [watcher_push_all, ← hc]
  | cons v rest ih =>
    intro ch hc hl hp
    have hstep : watcher_push_all ch (v :: rest) =
        watcher_push_all (watcher_push ch v) rest := rfl
    by_cases hfull : ch.buffer.length < ch.capacity
    · have hv : watcher_push ch v = { ch with buffer := ch.buffer ++ [v] } := by
        simp [watcher_push, hc, hfull]
      rw [hstep, hv, ih _ (by simp [hc]) (by simp; omega)
        (fun hne => absurd (hp (by simpa using hne)) (by omega))]
      have h3 : ch.capacity - ch.buffer.length =
          (ch.capacity - (ch.buffer.length + 1)) + 1 := by omega
      simp [h3, List.take_succ_cons, List.drop_succ_cons]
    · have heq : ch.buffer.length = ch.capacity := by omega
      have hv : watcher_push ch v =
          { ch with pendingSends := ch.pendingSends ++ [v] } := by
        simp [watcher_push, hc, hfull]
      rw [hstep, hv, ih _ (by simp [hc]) (by simp [heq]) (by simp [heq])]
      have h0 : ch.capacity - ch.buffer.length = 0 := by omega
      simp [h0]

end FileSystemCollector

set_option maxRecDepth 4000 in
open FileSystemCollector in
/-- C7 counterexample: pushing capacity plus one notifications into the
fresh channel of the filesystem engine leaves the overflow notification
parked in a pending send task awaiting capacity — nothing is dropped
and no warning is recorded, refuting the claim that an overflow push is
dropped with a warning. -/
theorem c7_counterexample :
    (watcher_push_all (BoundedChannel.empty Nat channel_capacity)
        (List.range (channel_capacity + 1))).dropped = 0 ∧
    (watcher_push_all (BoundedChannel.empty Nat channel_capacity)
        (List.range (channel_capacity + 1))).warnings = 0 ∧
    (watcher_push_all (BoundedChannel.empty Nat channel_capacity)
        (List.range (channel_capacity + 1))).pendingSends = [100] ∧
    (watcher_push_all (BoundedChannel.empty Nat channel_capacity)
        (List.range (channel_capacity + 1))).buffer = List.range 100 := by
  refine ⟨?_, ?_, ?_, ?_⟩ <;> decide

open FileSystemCollector in
/-- C7 amended: the watcher callback never blocks the producer (it only
spawns a send task), and on overflow the push is retained, not dropped:
after any sequence of pushes into a fresh open channel the buffer holds
exactly the first capacity-many notifications (so at most capacity are
observable by a collect that drains the channel), all remaining
notifications are parked in pending send tasks awaiting capacity,
nothing is dropped, and no warning is recorded (the send only warns
when the receiver has been closed). -/
theorem c7_overflow_no_drop (cap : Nat) (vs : List Nat) :
    (watcher_push_all (BoundedChannel.empty Nat cap) vs).buffer = vs.take cap ∧
    (watcher_push_all (BoundedChannel.empty Nat cap) vs).pendingSends = vs.drop cap ∧
    (watcher_push_all (BoundedChannel.empty Nat cap) vs).dropped = 0 ∧
    (watcher_push_all (BoundedChannel.empty Nat cap) vs).warnings = 0 ∧
    (watcher_push_all (BoundedChannel.empty Nat cap) vs).buffer.length ≤ cap := by
  have h := watcher_push_all_spec vs (BoundedChannel.empty Nat cap) rfl
    (by simp [BoundedChannel.empty]) (by simp [BoundedChannel.empty])
  rw [h]
  simp [BoundedChannel.empty]

open FileSystemCollector in
/-- C8 counterexample: with accepted extensions txt only, a Create
notification for a.txt whose stat succeeds but reports size zero yields
no event — the builder records the stat size unconditionally and a
present zero size fails validation — refuting the claim that a
notification for a.txt yields one event whenever the stat succeeds. -/
theorem c8_counterexample :
    process_event [".txt"] "host" "id0" 0 none .Create
      [{ pathStr := "a.txt", extension := some "txt", isDir := false,
         stat := some ("file", 0), hash := none }] = none ∧
    ({ pathStr := "a.txt", extension := some "txt", isDir := false,
       stat := some ("file", 0), hash := none } : PathInfo).stat ≠ none := by
  refine ⟨?_, ?_⟩ <;> decide

open FileSystemCollector in
/-- C8 amended: a notification for a directory is never filtered by
extension, while a non-directory is processed only when its extension
is in the accepted set — a non-matching file yields no event and no
error; a notification whose path passes the filter, whose kind maps to
Created, Modified or Deleted and whose stat succeeds yields exactly one
built event, provided additionally that the stat size is non-zero (and
the path and file-type strings are nonempty, as an OS stat guarantees):
with accepted extensions txt only, a.log yields zero events and a
non-empty a.txt yields one. -/
theorem c8_extension_filtering (extensions : List String)
    (hostname genId : String) (now : Timestamp)
    (procInfo : Option (Nat × String)) (kind : NotifyKind) (p : PathInfo) :
    (p.isDir = false → should_monitor_file extensions p.extension = false →
      process_event extensions hostname genId now procInfo kind [p] = none) ∧
    (∀ (et : FileEventType) (ft : String) (sz : Nat),
      (p.isDir = true ∨ should_monitor_file extensions p.extension = true) →
      map_event_kind kind = some et → p.stat = some (ft, sz) →
      p.pathStr ≠ "" → ft ≠ "" → sz ≠ 0 →
      process_event extensions hostname genId now procInfo kind [p] =
        some { id := genId, timestamp := now, source := hostname,
               category := "filesystem", event_type := et,
               path := p.pathStr, new_path := none, file_type := ft,
               file_size := some sz, permissions := none,
               hash := some (p.hash.getD ""),
               process_id := some (procInfo.getD (0, "unknown")).1,
               process_name := some (procInfo.getD (0, "unknown")).2 }) := by
  constructor
  · intro hdir hmon
    simp [process_event, hdir, hmon]
  · intro et ft sz hpass hkind hstat hpath hft hsz
    have hguard : (!p.isDir && !(should_monitor_file extensions p.extension)) = false := by
      rcases hpass with h | h <;> simp [h]
    simp [process_event, hguard, hkind, hstat, FileEventBuilder.build,
      validateThen, FileEvent.validate, hpath, hft, hsz, Except.toOption]

open FileSystemCollector in
/-- Witness for c8_extension_filtering: with accepted extensions txt
only, a Create notification for a.log yields no event while one for a
five-byte a.txt yields exactly one Created event. -/
theorem c8_extension_filtering_witness :
    process_event [".txt"] "host" "id0" 0 none .Create
      [{ pathStr := "a.log", extension := some "log", isDir := false,
         stat := some ("file", 5), hash := none }] = none ∧
    process_event [".txt"] "host" "id0" 0 none .Create
      [{ pathStr := "a.txt", extension := some "txt", isDir := false,
         stat := some ("file", 5), hash := none }] =
      some { id := "id0", timestamp := 0, source := "host",
             category := "filesystem", event_type := .Created,
             path := "a.txt", new_path := none, file_type := "file",
             file_size := some 5, permissions := none, hash := some "",
             process_id := some 0, process_name := some "unknown" } := by
  constructor
  · exact (c8_extension_filtering [".txt"] "host" "id0" 0 none .Create
      { pathStr := "a.log", extension := some "log", isDir := false,
        stat := some ("file", 5), hash := none }).1 rfl (by decide)
  · exact (c8_extension_filtering [".txt"] "host" "id0" 0 none .Create
      { pathStr := "a.txt", extension := some "txt", isDir := false,
        stat := some ("file", 5), hash := none }).2 .Created "file" 5
      (Or.inr (by decide)) rfl rfl (by decide) (by decide) (by decide)

/-- C9: severity is a deterministic pure function of the event kind
alone. Two events with the same kind have the same severity whatever
their other fields, and the fixed table holds: for files Created and
Deleted are High, Modified and Renamed are Medium, AttributesModified
and Accessed are Low; for registry Created and Deleted are High and
Modified is Medium. The event structures store no severity field, so
severity is recomputed from the kind on every query and cannot drift. -/
theorem c9_severity_pure_function :
    (∀ e e' : FileEvent, e.event_type = e'.event_type →
      e.severity = e'.severity) ∧
    (∀ e e' : RegistryEvent, e.event_type = e'.event_type →
      e.severity = e'.severity) ∧
    (∀ e : FileEvent,
      (e.event_type = .Created → e.severity = .High) ∧
      (e.event_type = .Deleted → e.severity = .High) ∧
      (e.event_type = .Modified → e.severity = .Medium) ∧
      (e.event_type = .Renamed → e.severity = .Medium) ∧
      (e.event_type = .AttributesModified → e.severity = .Low) ∧
      (e.event_type = .Accessed → e.severity = .Low)) ∧
    (∀ e : RegistryEvent,
      (e.event_type = .Created → e.severity = .High) ∧
      (e.event_type = .Deleted → e.severity = .High) ∧
      (e.event_type = .Modified → e.severity = .Medium)) := by
  refine ⟨?_, ?_, ?_, ?_⟩
  · intro e e' h
    unfold FileEvent.severity
    rw [h]
  · intro e e' h
    unfold RegistryEvent.severity
    rw [h]
  · intro e
    refine ⟨?_, ?_, ?_, ?_, ?_, ?_⟩ <;> intro h <;>
      simp [FileEvent.severity, h]
  · intro e
    refine ⟨?_, ?_, ?_⟩ <;> intro h <;>
      simp [RegistryEvent.severity, h]

/-- Witness for c9_severity_pure_function: two file events of the same
Created kind differing in every other field share the High severity,
and a Modified registry event has Medium severity. -/
theorem c9_severity_pure_function_witness :
    ({ id := "a", timestamp := 0, source := "h1", category := "filesystem",
       event_type := .Created, path := "x", new_path := none,
       file_type := "file", file_size := some 1, permissions := none,
       hash := none, process_id := none,
       process_name := none } : FileEvent).severity =
    ({ id := "b", timestamp := 9, source := "h2", category := "filesystem",
       event_type := .Created, path := "y", new_path := some "z",
       file_type := "directory", file_size := none,
       permissions := some "rw", hash := some "d", process_id := some 3,
       process_name := some "p" } : FileEvent).severity ∧
    ({ id := "c", timestamp := 1, source := "h", category := "registry",
       event_type := .Modified, key_path := "HKLM", value_name := none,
       old_data := none, new_data := none, process_name := none,
       process_id := none } : RegistryEvent).severity = .Medium := by
  constructor
  · exact c9_severity_pure_function.1
      { id := "a", timestamp := 0, source := "h1", category := "filesystem",
        event_type := .Created, path := "x", new_path := none,
        file_type := "file", file_size := some 1, permissions := none,
        hash := none, process_id := none, process_name := none }
      { id := "b", timestamp := 9, source := "h2", category := "filesystem",
        event_type := .Created, path := "y", new_path := some "z",
        file_type := "directory", file_size := none,
        permissions := some "rw", hash := some "d", process_id := some 3,
        process_name := some "p" } rfl
  · exact (c9_severity_pure_function.2.2.2
      { id := "c", timestamp := 1, source := "h", category := "registry",
        event_type := .Modified, key_path := "HKLM", value_name := none,
        old_data := none, new_data := none, process_name := none,
        process_id := none }).2.2 rfl

open RegistryCollector in
/-- C10: for every monitored location the event synthesized by the
push-path background loop — Modified kind, hive backslash subkey path,
generated id, current timestamp, host source, category registry —
always builds successfully (its key path is structurally nonempty), so
the unwrap-or-else branch that would panic the monitoring loop is
unreachable. -/
theorem c10_push_loop_build_never_fails (hostname genId : String)
    (now : Timestamp) (subkey hive : String)
    (_hmem : (subkey, hive) ∈ AUTORUN_LOCATIONS ++ SENSITIVE_KEYS) :
    ∃ e : RegistryEvent,
      push_event_build hostname genId now hive subkey = .ok e ∧
      e.event_type = .Modified ∧ e.key_path = hive ++ "\\" ++ subkey ∧
      e.category = "registry" ∧ e.source = hostname ∧ e.id = genId ∧
      e.timestamp = now := by
  have h := RegistryEventBuilder.build_all_some genId (some genId) now
    hostname "registry" .Modified (hive ++ "\\" ++ subkey) none none none
    none none (backslash_path_ne_empty hive subkey)
  exact ⟨_, h, rfl, rfl, rfl, rfl, rfl, rfl⟩

open RegistryCollector in
/-- Witness for c10_push_loop_build_never_fails at the first monitored
autorun location of the fixed table. -/
theorem c10_push_loop_build_never_fails_witness :
    ∃ e : RegistryEvent,
      push_event_build "host" "g" 0 "HKEY_LOCAL_MACHINE"
          "SOFTWARE\\Microsoft\\Windows\\CurrentVersion\\Run" = .ok e ∧
      e.event_type = .Modified ∧
      e.key_path = "HKEY_LOCAL_MACHINE" ++ "\\" ++
        "SOFTWARE\\Microsoft\\Windows\\CurrentVersion\\Run" ∧
      e.category = "registry" ∧ e.source = "host" ∧ e.id = "g" ∧
      e.timestamp = 0 :=
  c10_push_loop_build_never_fails "host" "g" 0
    "SOFTWARE\\Microsoft\\Windows\\CurrentVersion\\Run"
    "HKEY_LOCAL_MACHINE" (by decide)

end SpathaX
